import Mathlib

/-!
Shallow embedding of the tiered artist-entity model of the Ferrispot client
(`src/model/artist.rs`): the field-tier structs, the raw response object, the
`Artist` variant union, the capability-view accessors and the conversion
engine between them. Rust panics in conversions are modelled as `none`
(`Option`-valued conversions); conversions that cannot panic are total
Lean functions.
-/

namespace Ferrispot

/-- Modelled from the spec: `ExternalUrls` (defined in the model root module,
which is not among the provided sources) is a mapping of provider to URL, and
defaults to the empty mapping when the wire field is absent. -/
structure ExternalUrls where
  urls : List (String × String)
deriving DecidableEq

/-- Modelled from the spec: an image reference with url, width and height
(`Image` is defined in the model root module, not among the provided sources). -/
structure Image where
  url : String
  width : Nat
  height : Nat
deriving DecidableEq

/-- Modelled from the spec: `Id` wraps the stable catalog identifier string
(`Id` and `IdTrait.id` live in the id module, not among the provided sources). -/
structure Id where
  id : String
deriving DecidableEq

/-- Modelled from the spec: `TypeArtist` is the discriminant-tag marker for the
artist entity kind. The wire `type` field is validated against it at
deserialization time and the marker itself carries no data (it is a unit
marker, so the tag string is not retained on the entity). -/
structure TypeArtist where
deriving DecidableEq

/-- `CommonArtistFields`: fields available in every artist. -/
structure CommonArtistFields where
  name : String
  external_urls : ExternalUrls
  item_type : TypeArtist
deriving DecidableEq

/-- `FullArtistFields`: fields only in full artists. `popularity` is a `u32`
in the source; it is modelled as a `Nat` kept below `2 ^ 32` by the decoder. -/
structure FullArtistFields where
  genres : List String
  images : List Image
  popularity : Nat
deriving DecidableEq

/-- `NonLocalArtistFields`: fields only in non-local artists. -/
structure NonLocalArtistFields where
  id : Id
deriving DecidableEq

/-- `ArtistObject`: the raw response object covering all possible artist
responses; holds the common tier unconditionally and the non-local and full
tiers as optional groups. -/
structure ArtistObject where
  common : CommonArtistFields
  non_local : Option NonLocalArtistFields
  full : Option FullArtistFields
deriving DecidableEq

/-- `FullArtist`: common, non-local and full tiers. -/
structure FullArtist where
  common : CommonArtistFields
  non_local : NonLocalArtistFields
  full : FullArtistFields
deriving DecidableEq

/-- `PartialArtist`: common and non-local tiers. -/
structure PartialArtist where
  common : CommonArtistFields
  non_local : NonLocalArtistFields
deriving DecidableEq

/-- `LocalArtist`: common tier only. -/
structure LocalArtist where
  common : CommonArtistFields
deriving DecidableEq

/-- The `Artist` enum: closed tagged union over the three artist kinds
(the source's `Box` indirection is dropped; it does not affect values). -/
inductive Artist where
  | Full : FullArtist → Artist
  | Partial : PartialArtist → Artist
  | Local : LocalArtist → Artist
deriving DecidableEq

/-! Capability-view accessors, one per blanket trait implementation.
`CommonArtistInformation` (name, external_urls) is implemented for all three
variants through `private::CommonFields`; `FullArtistInformation` (genres,
images, popularity) only for `FullArtist`; `NonLocalArtistInformation` (id)
for `FullArtist` and `PartialArtist`. -/

def FullArtist.name (f : FullArtist) : String := f.common.name

def FullArtist.external_urls (f : FullArtist) : ExternalUrls := f.common.external_urls

def PartialArtist.name (p : PartialArtist) : String := p.common.name

def PartialArtist.external_urls (p : PartialArtist) : ExternalUrls := p.common.external_urls

def LocalArtist.name (l : LocalArtist) : String := l.common.name

def LocalArtist.external_urls (l : LocalArtist) : ExternalUrls := l.common.external_urls

def FullArtist.genres (f : FullArtist) : List String := f.full.genres

def FullArtist.images (f : FullArtist) : List Image := f.full.images

def FullArtist.popularity (f : FullArtist) : Nat := f.full.popularity

def FullArtist.id (f : FullArtist) : String := f.non_local.id.id

def PartialArtist.id (p : PartialArtist) : String := p.non_local.id.id

/-- The common tier held by whichever variant the union currently holds
(helper for stating frame conditions over the union). -/
def Artist.common : Artist → CommonArtistFields
  | .Full f => f.common
  | .Partial p => p.common
  | .Local l => l.common

/-! The conversion engine: one Lean function per `From` implementation in the
source. A `panic!` arm is modelled as `none`. -/

/-- `impl From<ArtistObject> for Artist` (classification): switches on the
presence of the two optional tiers; the (absent non-local, present full)
combination panics in the source, modelled as `none`. -/
def ArtistObject.toArtist (obj : ArtistObject) : Option Artist :=
  match obj.non_local, obj.full with
  | some nl, some f => some (Artist.Full ⟨obj.common, nl, f⟩)
  | some nl, none => some (Artist.Partial ⟨obj.common, nl⟩)
  | none, none => some (Artist.Local ⟨obj.common⟩)
  | none, some _ => none

/-- `impl From<PartialArtist> for Artist` (widening, total). -/
def PartialArtist.toArtist (p : PartialArtist) : Artist := Artist.Partial p

/-- `impl From<FullArtist> for Artist` (widening, total). -/
def FullArtist.toArtist (f : FullArtist) : Artist := Artist.Full f

/-- `impl From<LocalArtist> for Artist` (widening, total). -/
def LocalArtist.toArtist (l : LocalArtist) : Artist := Artist.Local l

/-- `impl From<Artist> for FullArtist`: unwraps `Full`; panics on `Partial`
and `Local`, modelled as `none`. -/
def Artist.toFullArtist : Artist → Option FullArtist
  | .Full f => some f
  | .Partial _ => none
  | .Local _ => none

/-- `impl From<ArtistObject> for FullArtist`: requires both optional tiers
present; panics otherwise, modelled as `none`. -/
def ArtistObject.toFullArtist (obj : ArtistObject) : Option FullArtist :=
  match obj.non_local, obj.full with
  | some nl, some f => some ⟨obj.common, nl, f⟩
  | _, _ => none

/-- `impl From<Artist> for PartialArtist`: drops the full tier of a `Full`,
keeps a `Partial`, panics on `Local`, modelled as `none`. -/
def Artist.toPartialArtist : Artist → Option PartialArtist
  | .Full f => some ⟨f.common, f.non_local⟩
  | .Partial p => some p
  | .Local _ => none

/-- `impl From<ArtistObject> for PartialArtist`: requires only the non-local
tier to be present (the full tier, if present, is dropped); panics when the
non-local tier is absent, modelled as `none`. -/
def ArtistObject.toPartialArtist (obj : ArtistObject) : Option PartialArtist :=
  match obj.non_local with
  | some nl => some ⟨obj.common, nl⟩
  | none => none

/-- `impl From<Artist> for LocalArtist`: total, keeps only the common tier. -/
def Artist.toLocalArtist : Artist → LocalArtist
  | .Full f => ⟨f.common⟩
  | .Partial p => ⟨p.common⟩
  | .Local l => l

/-- `impl From<ArtistObject> for LocalArtist`: total, keeps only the common
tier regardless of which optional tiers are present. -/
def ArtistObject.toLocalArtist (obj : ArtistObject) : LocalArtist := ⟨obj.common⟩

/-! Deserialization of one wire document into an `ArtistObject`. The struct
definitions with their serde attributes are in the source; the semantics of
serde's flatten and of `obj_deserialize` are modelled from the spec. -/

/-- A parsed wire document for one artist entity: each field of the wire
schema, present or absent. -/
structure Doc where
  name : Option String
  external_urls : Option ExternalUrls
  type_tag : Option String
  id : Option String
  genres : Option (List String)
  images : Option (List Image)
  popularity : Option Nat
deriving DecidableEq

/-- Modelled from the spec: `obj_deserialize` (in the object_type module, not
among the provided sources) validates the wire `type` discriminant against
the expected entity-kind literal and yields the data-free marker; a mismatch
is a decode failure. -/
def obj_deserialize (s : String) : Option TypeArtist :=
  if s = "artist" then some ⟨⟩ else none

/-- The full tier of a document: present exactly when all of its required
keys are present and `popularity` fits in a `u32` (the source field is
`popularity: u32`); partial presence of the group's keys is recorded as
tier absent, per the flattened optional group. -/
def deserializeFullArtistFields (d : Doc) : Option FullArtistFields :=
  match d.genres, d.images, d.popularity with
  | some g, some im, some p => if p < 2 ^ 32 then some ⟨g, im, p⟩ else none
  | _, _, _ => none

/-- The non-local tier of a document: present exactly when `id` is present. -/
def deserializeNonLocalArtistFields (d : Doc) : Option NonLocalArtistFields :=
  d.id.map fun i => ⟨⟨i⟩⟩

/-- Deserialize a document into the raw `ArtistObject`: `name` and a valid
`type` discriminant are mandatory, `external_urls` defaults to empty when
absent, and the two optional tier groups record their own presence. -/
def deserializeArtistObject (d : Doc) : Option ArtistObject :=
  match d.name, d.type_tag with
  | some n, some t =>
      match obj_deserialize t with
      | some ty =>
          some ⟨⟨n, d.external_urls.getD ⟨[]⟩, ty⟩,
                deserializeNonLocalArtistFields d,
                deserializeFullArtistFields d⟩
      | none => none
  | _, _ => none

/-! Concrete values used by witnesses and counterexamples. -/

def exCommon : CommonArtistFields := ⟨"Test", ⟨[]⟩, ⟨⟩⟩

def exNonLocal : NonLocalArtistFields := ⟨⟨"abc"⟩⟩

def exFullFields : FullArtistFields := ⟨["rock"], [⟨"u", 64, 64⟩], 50⟩

def exFull : FullArtist := ⟨exCommon, exNonLocal, exFullFields⟩

def exPartialA : PartialArtist := ⟨exCommon, exNonLocal⟩

def exLocal : LocalArtist := ⟨exCommon⟩

/-- A raw object with both optional tiers present. -/
def exObjF : ArtistObject := ⟨exCommon, some exNonLocal, some exFullFields⟩

/-- A raw object with only the non-local tier present. -/
def exObjP : ArtistObject := ⟨exCommon, some exNonLocal, none⟩

/-- A raw object with neither optional tier present. -/
def exObjL : ArtistObject := ⟨exCommon, none, none⟩

/-- A raw object in the illegal tier combination: non-local absent, full
present. -/
def exObjX : ArtistObject := ⟨exCommon, none, some exFullFields⟩

/-- Scenario-1 document: name, type, id, genres, images, popularity 50. -/
def exDoc50 : Doc :=
  ⟨some "Test", none, some "artist", some "abc", some ["rock"], some [⟨"u", 64, 64⟩], some 50⟩

/-- A document the decoder accepts whose popularity is 200, outside 0 to 100. -/
def exDoc200 : Doc :=
  ⟨some "Test", none, some "artist", some "abc", some [], some [], some 200⟩

/-- The raw object `exDoc200` deserializes to. -/
def exObj200 : ArtistObject := ⟨exCommon, some exNonLocal, some ⟨[], [], 200⟩⟩

/-- The full artist `exObj200` classifies to. -/
def exFull200 : FullArtist := ⟨exCommon, exNonLocal, ⟨[], [], 200⟩⟩

/-! Helper lemmas shared by several claims. -/

/-- The discriminant marker type carries no data: any two values are equal. -/
theorem typeArtist_subsingleton (a b : TypeArtist) : a = b := by
  cases a
  cases b
  rfl

/-- Classification into `Full` forces both optional tiers of the raw object
to be present, with exactly the classified fields. -/
theorem toArtist_full_elim (obj : ArtistObject) (f : FullArtist)
    (h : obj.toArtist = some (Artist.Full f)) :
    obj.common = f.common ∧ obj.non_local = some f.non_local ∧ obj.full = some f.full := by
  obtain ⟨c, nlo, fo⟩ := obj
  rcases nlo with _ | nl <;> rcases fo with _ | ff <;>
    simp only [ArtistObject.toArtist, Option.some.injEq, Artist.Full.injEq,
      reduceCtorEq] at h
  subst h
  exact ⟨rfl, rfl, rfl⟩

/-- Successful deserialization records each optional tier exactly as the
tier-group deserializers determine it, and succeeds only on a valid
discriminant. -/
theorem deserializeArtistObject_fields (d : Doc) (obj : ArtistObject)
    (h : deserializeArtistObject d = some obj) :
    obj.non_local = deserializeNonLocalArtistFields d
      ∧ obj.full = deserializeFullArtistFields d
      ∧ d.type_tag = some "artist" := by
  obtain ⟨nm, eu, tt, i, g, im, pp⟩ := d
  rcases nm with _ | n
  · exact absurd h (by simp [deserializeArtistObject])
  rcases tt with _ | t
  · exact absurd h (by simp [deserializeArtistObject])
  by_cases he : t = "artist"
  · subst he
    have h' : some (ArtistObject.mk
        ⟨n, (Option.getD eu ⟨[]⟩), ⟨⟩⟩
        (deserializeNonLocalArtistFields ⟨some n, eu, some "artist", i, g, im, pp⟩)
        (deserializeFullArtistFields ⟨some n, eu, some "artist", i, g, im, pp⟩)) = some obj := h
    injection h' with h''
    subst h''
    exact ⟨rfl, rfl, rfl⟩
  · refine absurd h ?_
    have : obj_deserialize t = none := by simp [obj_deserialize, he]
    simp [deserializeArtistObject, this]

/-- When the full tier-group deserializer succeeds and the wire `popularity`
key is present, the recorded tier carries exactly that value. -/
theorem deserializeFullArtistFields_popularity (d : Doc) (p : Nat) (ff : FullArtistFields)
    (h3 : d.popularity = some p) (hf : deserializeFullArtistFields d = some ff) :
    ff.popularity = p := by
  obtain ⟨nm, eu, tt, i, g, im, pp⟩ := d
  have h3' : pp = some p := h3
  subst h3'
  rcases g with _ | gs <;> rcases im with _ | ims <;>
    simp only [deserializeFullArtistFields, reduceCtorEq] at hf
  split at hf
  · injection hf with hff
    subst hff
    rfl
  · exact absurd hf (by simp)

/-- C1: classification of a raw `ArtistObject` into the `Artist` union is
exhaustive over the four tier-presence states: both tiers present yields
`Full` with exactly those fields, only the non-local tier yields `Partial`,
neither tier yields `Local`, and the illegal state (non-local absent, full
present) is the fatal invariant-violation outcome (`none`), never a default
or best-guess variant. -/
theorem c1_classification_total (obj : ArtistObject) :
    (∀ nl ff, obj.non_local = some nl → obj.full = some ff →
      obj.toArtist = some (Artist.Full ⟨obj.common, nl, ff⟩))
  ∧ (∀ nl, obj.non_local = some nl → obj.full = none →
      obj.toArtist = some (Artist.Partial ⟨obj.common, nl⟩))
  ∧ (obj.non_local = none → obj.full = none →
      obj.toArtist = some (Artist.Local ⟨obj.common⟩))
  ∧ (∀ ff, obj.non_local = none → obj.full = some ff → obj.toArtist = none) := by
  obtain ⟨c, nlo, fo⟩ := obj
  refine ⟨fun nl ff h1 h2 => ?_, fun nl h1 h2 => ?_, fun h1 h2 => ?_, fun ff h1 h2 => ?_⟩ <;>
    simp_all [ArtistObject.toArtist]

/-- Witness for C1 at the four concrete tier-presence states. -/
theorem c1_classification_total_witness :
    exObjF.toArtist = some (Artist.Full ⟨exObjF.common, exNonLocal, exFullFields⟩)
  ∧ exObjP.toArtist = some (Artist.Partial ⟨exObjP.common, exNonLocal⟩)
  ∧ exObjL.toArtist = some (Artist.Local ⟨exObjL.common⟩)
  ∧ exObjX.toArtist = none :=
  ⟨(c1_classification_total exObjF).1 exNonLocal exFullFields rfl rfl,
   (c1_classification_total exObjP).2.1 exNonLocal rfl rfl,
   (c1_classification_total exObjL).2.2.1 rfl rfl,
   (c1_classification_total exObjX).2.2.2 exFullFields rfl rfl⟩

/-- C2: narrowing the union checks the runtime tag: `Artist` to `FullArtist`
succeeds exactly when the union holds `Full`; `Artist` to `PartialArtist`
succeeds exactly when it holds `Full` or `Partial`; on `Local` both are
fatal (`none`). -/
theorem c2_conditional_narrowing (a : Artist) :
    (a.toFullArtist.isSome ↔ ∃ f, a = Artist.Full f)
  ∧ (a.toPartialArtist.isSome ↔ (∃ f, a = Artist.Full f) ∨ ∃ p, a = Artist.Partial p)
  ∧ (∀ l, a = Artist.Local l → a.toFullArtist = none ∧ a.toPartialArtist = none) := by
  cases a <;> simp [Artist.toFullArtist, Artist.toPartialArtist]

/-- Witness for C2: both narrowings fail on a concrete `Local` union value. -/
theorem c2_conditional_narrowing_witness :
    (Artist.Local exLocal).toFullArtist = none
  ∧ (Artist.Local exLocal).toPartialArtist = none :=
  (c2_conditional_narrowing (Artist.Local exLocal)).2.2 exLocal rfl

/-- C3: widen-then-narrow is the identity on `Full` values: wrapping a
`FullArtist` into the union and narrowing back returns the same value. -/
theorem c3_roundtrip_full (f : FullArtist) :
    f.toArtist.toFullArtist = some f := rfl

/-- C5: converting `Full` to `Partial` through the union and then that
`Partial` to `Local` yields the same `LocalArtist` as converting `Full` to
`Local` directly. -/
theorem c5_full_partial_local_compose (f : FullArtist) :
    (f.toArtist.toPartialArtist).map (fun p => p.toArtist.toLocalArtist)
      = some (f.toArtist.toLocalArtist) := rfl

/-- C9: widen-then-narrow is the identity on `Partial` and `Local` values as
well: wrapping into the union and narrowing back returns the same value. -/
theorem c9_roundtrip_partial_local (p : PartialArtist) (l : LocalArtist) :
    p.toArtist.toPartialArtist = some p ∧ l.toArtist.toLocalArtist = l :=
  ⟨rfl, rfl⟩

/-- Counterexample to C4 as stated: a raw object whose tier combination is
(non-local present, full present) — not `PartialArtist`'s defining
combination — still converts successfully into a `PartialArtist`, and a raw
object in the illegal combination (non-local absent, full present) still
converts successfully into a `LocalArtist`. -/
theorem c4_exact_match_counterexample :
    exObjF.full = some exFullFields
  ∧ exObjF.toPartialArtist = some exPartialA
  ∧ exObjX.non_local = none
  ∧ exObjX.full = some exFullFields
  ∧ exObjX.toLocalArtist = exLocal :=
  ⟨rfl, rfl, rfl, rfl, rfl⟩

/-- C4 amended: narrowing a raw object into `FullArtist` succeeds exactly
when both optional tiers are present; into `PartialArtist` exactly when the
non-local tier is present (a present full tier is dropped, not required
absent); into `LocalArtist` always (only the common tier is kept). No
conversion default-constructs missing fields: every field of a successful
result comes from the raw object. -/
theorem c4_object_narrowing (obj : ArtistObject) :
    (obj.toFullArtist.isSome ↔ (obj.non_local.isSome ∧ obj.full.isSome))
  ∧ (obj.toPartialArtist.isSome ↔ obj.non_local.isSome)
  ∧ obj.toLocalArtist = ⟨obj.common⟩
  ∧ (∀ f, obj.toFullArtist = some f →
      obj.common = f.common ∧ obj.non_local = some f.non_local ∧ obj.full = some f.full)
  ∧ (∀ p, obj.toPartialArtist = some p →
      obj.common = p.common ∧ obj.non_local = some p.non_local) := by
  obtain ⟨c, nlo, fo⟩ := obj
  rcases nlo with _ | nl <;> rcases fo with _ | ff <;>
    simp [ArtistObject.toFullArtist, ArtistObject.toPartialArtist,
      ArtistObject.toLocalArtist]

/-- Witness for C4 amended: at a raw object with both tiers present, direct
narrowing to `FullArtist` succeeds with exactly the object's fields. -/
theorem c4_object_narrowing_witness :
    exObjF.common = exFull.common
  ∧ exObjF.non_local = some exFull.non_local
  ∧ exObjF.full = some exFull.full :=
  (c4_object_narrowing exObjF).2.2.2.1 exFull rfl

/-- C6: deserialization validates the wire `type` discriminant against the
artist entity kind (the document must carry exactly the expected literal for
decoding to succeed), and the discriminant is not retained on the resulting
entity: the stored marker is a unit value carrying no data. -/
theorem c6_discriminant_validated_not_retained (d : Doc) (obj : ArtistObject)
    (h : deserializeArtistObject d = some obj) :
    d.type_tag = some "artist" ∧ ∀ t : TypeArtist, obj.common.item_type = t :=
  ⟨(deserializeArtistObject_fields d obj h).2.2,
   fun t => typeArtist_subsingleton _ t⟩

/-- Witness for C6 at the scenario-1 document. -/
theorem c6_discriminant_witness :
    exDoc50.type_tag = some "artist"
  ∧ ∀ t : TypeArtist, exObjF.common.item_type = t :=
  c6_discriminant_validated_not_retained exDoc50 exObjF (by decide)

/-- Counterexample to C7 as stated: the decoder accepts a document whose
`popularity` is 200, classifies it as `Full`, and the popularity accessor
returns 200, outside 0 to 100. -/
theorem c7_popularity_counterexample :
    deserializeArtistObject exDoc200 = some exObj200
  ∧ exObj200.toArtist = some (Artist.Full exFull200)
  ∧ exFull200.popularity = 200
  ∧ 100 < exFull200.popularity := by
  refine ⟨by decide, rfl, rfl, by decide⟩

/-- C7 amended: the decoder enforces only the machine-integer (u32) bound on
`popularity`, not the 0 to 100 interface contract; when the accepted
document's popularity is within 0 to 100, the `Full` variant's popularity
accessor returns exactly that value, hence a value within 0 to 100. -/
theorem c7_popularity_in_range (d : Doc) (obj : ArtistObject) (f : FullArtist) (p : Nat)
    (h1 : deserializeArtistObject d = some obj)
    (h2 : obj.toArtist = some (Artist.Full f))
    (h3 : d.popularity = some p) (hp : p ≤ 100) :
    f.popularity = p ∧ f.popularity ≤ 100 := by
  obtain ⟨-, -, hfull⟩ := toArtist_full_elim obj f h2
  obtain ⟨-, hdes, -⟩ := deserializeArtistObject_fields d obj h1
  have hpf : f.full.popularity = p :=
    deserializeFullArtistFields_popularity d p f.full h3 (hdes.symm.trans hfull)
  exact ⟨hpf, hpf.le.trans hp⟩

/-- Witness for C7 amended at the scenario-1 document with popularity 50. -/
theorem c7_popularity_in_range_witness :
    exFull.popularity = 50 ∧ exFull.popularity ≤ 100 :=
  c7_popularity_in_range exDoc50 exObjF exFull 50 (by decide) rfl rfl (by decide)

/-- C8: capability gating — the full-only view data is not embedded in the
`Partial` or `Local` types, so no accessor on those types can recover the
full tier: every candidate accessor function disagrees with the full tier of
some `FullArtist` after it is narrowed to `Partial` (via the union) or to
`Local`. -/
theorem c8_capability_gating :
    (∀ g : PartialArtist → FullArtistFields, ∃ f : FullArtist,
      (f.toArtist.toPartialArtist).map g ≠ some f.full)
  ∧ (∀ g : LocalArtist → FullArtistFields, ∃ f : FullArtist,
      g (f.toArtist.toLocalArtist) ≠ f.full) := by
  constructor
  · intro g
    by_cases h : g exPartialA = ⟨[], [], 0⟩
    · refine ⟨⟨exCommon, exNonLocal, ⟨[], [], 1⟩⟩, ?_⟩
      show some (g exPartialA) ≠ some ⟨[], [], 1⟩
      simp [h]
    · refine ⟨⟨exCommon, exNonLocal, ⟨[], [], 0⟩⟩, ?_⟩
      show some (g exPartialA) ≠ some ⟨[], [], 0⟩
      simp [h]
  · intro g
    by_cases h : g exLocal = ⟨[], [], 0⟩
    · refine ⟨⟨exCommon, exNonLocal, ⟨[], [], 1⟩⟩, ?_⟩
      show g exLocal ≠ ⟨[], [], 1⟩
      simp [h]
    · exact ⟨⟨exCommon, exNonLocal, ⟨[], [], 0⟩⟩, h⟩

/-- C10: every conversion in the engine that succeeds leaves the common tier
(name, external URLs, discriminant) unchanged, for all conversions among
`ArtistObject`, `Artist`, `FullArtist`, `PartialArtist` and `LocalArtist`. -/
theorem c10_common_preserved (obj : ArtistObject) (a : Artist)
    (f : FullArtist) (p : PartialArtist) (l : LocalArtist) :
    (∀ a', obj.toArtist = some a' → a'.common = obj.common)
  ∧ (∀ f', obj.toFullArtist = some f' → f'.common = obj.common)
  ∧ (∀ p', obj.toPartialArtist = some p' → p'.common = obj.common)
  ∧ (obj.toLocalArtist).common = obj.common
  ∧ f.toArtist.common = f.common
  ∧ p.toArtist.common = p.common
  ∧ l.toArtist.common = l.common
  ∧ (∀ f', a.toFullArtist = some f' → f'.common = a.common)
  ∧ (∀ p', a.toPartialArtist = some p' → p'.common = a.common)
  ∧ (a.toLocalArtist).common = a.common := by
  refine ⟨fun a' h => ?_, fun f' h => ?_, fun p' h => ?_, rfl, rfl, rfl, rfl,
    fun f' h => ?_, fun p' h => ?_, ?_⟩
  · obtain ⟨c, nlo, fo⟩ := obj
    rcases nlo with _ | nl <;> rcases fo with _ | ff <;>
      simp only [ArtistObject.toArtist, Option.some.injEq, reduceCtorEq] at h <;>
      subst h <;> rfl
  · obtain ⟨c, nlo, fo⟩ := obj
    rcases nlo with _ | nl <;> rcases fo with _ | ff <;>
      simp only [ArtistObject.toFullArtist, Option.some.injEq, reduceCtorEq] at h
    subst h
    rfl
  · obtain ⟨c, nlo, fo⟩ := obj
    rcases nlo with _ | nl <;> rcases fo with _ | ff <;>
      simp only [ArtistObject.toPartialArtist, Option.some.injEq, reduceCtorEq] at h
    all_goals subst h
    all_goals rfl
  · rcases a with f0 | p0 | l0
    · cases Option.some.inj h
      rfl
    · exact absurd h (by simp [Artist.toFullArtist])
    · exact absurd h (by simp [Artist.toFullArtist])
  · rcases a with f0 | p0 | l0
    · cases Option.some.inj h
      rfl
    · cases Option.some.inj h
      rfl
    · exact absurd h (by simp [Artist.toPartialArtist])
  · cases a <;> rfl

/-- Witness for C10: classification of a concrete raw object preserves its
common tier. -/
theorem c10_common_preserved_witness :
    (Artist.Full exFull).common = exObjF.common :=
  (c10_common_preserved exObjF (Artist.Full exFull) exFull exPartialA exLocal).1
    (Artist.Full exFull) rfl

end Ferrispot
